import Mathlib

/-!
Shallow embedding of `flask_micropub.py` (Flask-Micropub `MicropubClient`).

Modelling conventions:
* Python strings are Lean `String`s (byte-level view of percent-coding stays in
  the ASCII range, which is all the protocol strings use).
* `None`-able Python values are `Option`s; Python truthiness of an optional
  string is `pyTruthy` (`None` and `""` are falsy).
* The Flask session is explicit state: `Session := String → Option String`,
  threaded in and out of each operation that can touch it.
* The HTTP transport is a `World`: a map from URLs to GET responses and from
  URL + form data to POST responses.  A `none` response models a transport
  fault (`requests` raising), and a handler result of `none` models an
  uncaught Python exception propagating out of the handler.
* `requests.Response.links` and BeautifulSoup link extraction are modelled as
  the per-relation lookup functions `headerLinks` / `htmlLinks` of a response,
  matching the spec's treatment of them as external capabilities.
-/

/-- Python truthiness of an optional string: `None` and `""` are falsy. -/
def pyTruthy : Option String → Bool
  | none => false
  | some s => s != ""

/-- Hex digit value, as in `urllib.parse.unquote` (accepts both cases). -/
def hexVal (c : Char) : Option Nat :=
  if '0' ≤ c ∧ c ≤ '9' then some (c.toNat - 48)
  else if 'A' ≤ c ∧ c ≤ 'F' then some (c.toNat - 55)
  else if 'a' ≤ c ∧ c ≤ 'f' then some (c.toNat - 87)
  else none

/-- Percent-decoding as in `urllib.parse.unquote`: a `%` followed by two hex
digits becomes the coded character; malformed escapes are kept literally.
Fuelled so the recursion is structural: each step consumes at least one
character, so fuel equal to the input length never runs out. -/
def percentDecodeAux : Nat → List Char → List Char
  | 0, l => l
  | f + 1, l =>
    match l with
    | [] => []
    | '%' :: a :: b :: rest =>
      match hexVal a, hexVal b with
      | some ha, some hb => Char.ofNat (16 * ha + hb) :: percentDecodeAux f rest
      | _, _ => '%' :: percentDecodeAux f (a :: b :: rest)
    | '%' :: rest => '%' :: rest
    | c :: rest => c :: percentDecodeAux f rest

/-- Percent-decoding of a whole string. -/
def percentDecode (l : List Char) : List Char := percentDecodeAux l.length l

/-- `urllib.parse.unquote_plus`: replace `+` by space, then percent-decode. -/
def unquotePlus (l : List Char) : List Char :=
  percentDecode (l.map (fun c => if c = '+' then ' ' else c))

/-- Python `s.split(sep)`: full split, `"".split(sep) = [""]`. -/
def pySplitOn (sep : Char) : List Char → List (List Char)
  | [] => [[]]
  | c :: rest =>
    let r := pySplitOn sep rest
    if c = sep then [] :: r
    else
      match r with
      | [] => [[c]]
      | h :: t => (c :: h) :: t

/-- Python `s.split(sep, 1)` when `sep` occurs: the pieces before and after the
first occurrence; `none` when `sep` does not occur. -/
def splitOnceOn (sep : Char) : List Char → Option (List Char × List Char)
  | [] => none
  | c :: rest =>
    if c = sep then some ([], rest)
    else (splitOnceOn sep rest).map (fun p => (c :: p.1, p.2))

/-- `urllib.parse.parse_qsl` with default arguments: split the body on `&`,
drop empty chunks, chunks without `=` and chunks with an empty value, and
plus/percent-decode names and values. -/
def parse_qsl (body : String) : List (String × String) :=
  (pySplitOn '&' body.data).filterMap (fun nv =>
    if nv = [] then none
    else
      match splitOnceOn '=' nv with
      | none => none
      | some (n, v) =>
        if v = [] then none
        else some (String.mk (unquotePlus n), String.mk (unquotePlus v)))

/-- First value for a key in a `parse_qs` dict: `rdata.get(k)[0]` when the key
is present (`parse_qs` groups `parse_qsl` pairs in order, so the first value
of a key is the value of its first pair), `none` when `k not in rdata`. -/
def qsFirst (body : String) (k : String) : Option String :=
  ((parse_qsl body).find? (fun p => p.1 == k)).map (fun p => p.2)

/-- Uppercase hex digit, as produced by `urllib.parse.quote`. -/
def hexUpper (n : Nat) : Char :=
  if n < 10 then Char.ofNat (48 + n) else Char.ofNat (55 + n)

/-- `urllib.parse.quote_plus` on one ASCII character: alphanumerics and
`_.-~` kept, space becomes `+`, everything else percent-coded. -/
def quoteCharPlus (c : Char) : List Char :=
  if c.isAlphanum || c == '_' || c == '.' || c == '-' || c == '~' then [c]
  else if c == ' ' then ['+']
  else ['%', hexUpper (c.toNat / 16), hexUpper (c.toNat % 16)]

/-- `urllib.parse.quote_plus` over a string. -/
def quote_plus (s : String) : String :=
  String.mk ((s.data.map quoteCharPlus).flatten)

/-- `urllib.parse.urlencode`: `k=v` pairs quoted with `quote_plus` and joined
with `&`, in dict insertion order. -/
def urlencode (params : List (String × String)) : String :=
  String.intercalate "&" (params.map (fun p => quote_plus p.1 ++ "=" ++ quote_plus p.2))

/-- Python `repr` of a string (single-quoted; the values here never need
escaping). -/
def pyStrRepr (s : String) : String := "\x27" ++ s ++ "\x27"

/-- Python `repr` of a list of strings. -/
def pyListRepr (l : List String) : String :=
  "[" ++ String.intercalate ", " (l.map pyStrRepr) ++ "]"

/-- Keys of an association list in first-occurrence order. -/
def keysInOrder : List (String × String) → List String
  | [] => []
  | (k, _) :: rest => k :: (keysInOrder rest).filter (fun k2 => k2 != k)

/-- All values bound to a key, in order. -/
def valuesFor (l : List (String × String)) (k : String) : List String :=
  (l.filter (fun p => p.1 == k)).map (fun p => p.2)

/-- Python `repr` of the dict-of-lists that `parse_qs` builds from the pairs. -/
def pyDictRepr (l : List (String × String)) : String :=
  "\x7b" ++
    String.intercalate ", "
      ((keysInOrder l).map (fun k => pyStrRepr k ++ ": " ++ pyListRepr (valuesFor l k))) ++
  "\x7d"

/-- An HTTP response: status, body, and the two per-relation link lookups
(`response.links.get(rel, {}).get('url')` and BeautifulSoup
`soup.find('link', {'rel': rel})` yielding its `href`). -/
structure HttpResp where
  status : Nat
  body : String
  headerLinks : String → Option String
  htmlLinks : String → Option String

/-- The outbound HTTP transport: GET by URL, POST by URL and form data
(form values are optional strings, as `requests` drops `None` entries).
`none` models a transport fault, which `requests` raises. -/
structure World where
  getResp : String → Option HttpResp
  postResp : String → List (String × Option String) → Option HttpResp

/-- The Flask session, an opaque per-visitor key-value store. -/
abbrev Session := String → Option String

/-- `flask.session[k] = v`. -/
def sessionSet (sess : Session) (k v : String) : Session :=
  fun k2 => if k2 = k then some v else sess k2

/-- The fixed session key `'_micropub_csrf_token'`. -/
def micropubCsrfKey : String := "_micropub_csrf_token"

/-- `DEFAULT_AUTH_URL` from the module head. -/
def DEFAULT_AUTH_URL : String := "https://indieauth.com/auth"

/-- `AuthResponse` with the attributes its constructor sets. -/
structure AuthResponse where
  me : Option String
  micropub_endpoint : Option String
  access_token : Option String
  state : Option String
  next_url : Option String
  scope : Option String
  error : Option String
deriving DecidableEq

/-- `AuthResponse.__init__`: all fields default to `None`; the deprecated
`next_url` attribute is aliased to `state` (`self.next_url = self.state = state`). -/
def mkAuthResponse (me micropub_endpoint access_token state scope error : Option String) :
    AuthResponse :=
  ⟨me, micropub_endpoint, access_token, state, state, scope, error⟩

/-- The query parameters of the provider's redirect back to the callback:
`flask.request.args.get` of `'code'`, `'state'`, `'me'`. -/
structure CallbackArgs where
  code : Option String
  state : Option String
  me : Option String

/-- `MicropubClient._discover_endpoints`: one GET to `me`; non-200 yields all
three endpoints absent; otherwise Link-header URLs per relation, with an HTML
`<link rel=...>` `href` fallback for each relation whose header URL is falsy. -/
def discover_endpoints (w : World) (me : String) :
    Option (Option String × Option String × Option String) :=
  match w.getResp me with
  | none => none
  | some resp =>
    if resp.status ≠ 200 then some (none, none, none)
    else
      let auth_endpoint := resp.headerLinks "authorization_endpoint"
      let token_endpoint := resp.headerLinks "token_endpoint"
      let micropub_endpoint := resp.headerLinks "micropub"
      if pyTruthy auth_endpoint = false ∨ pyTruthy token_endpoint = false ∨
          pyTruthy micropub_endpoint = false then
        let auth_endpoint :=
          if pyTruthy auth_endpoint = false then resp.htmlLinks "authorization_endpoint"
          else auth_endpoint
        let token_endpoint :=
          if pyTruthy token_endpoint = false then resp.htmlLinks "token_endpoint"
          else token_endpoint
        let micropub_endpoint :=
          if pyTruthy micropub_endpoint = false then resp.htmlLinks "micropub"
          else micropub_endpoint
        some (auth_endpoint, token_endpoint, micropub_endpoint)
      else some (auth_endpoint, token_endpoint, micropub_endpoint)

/-- Python `s.startswith(pre)`. -/
def pyStartsWith (s pre : String) : Bool := pre.data.isPrefixOf s.data

/-- Lines 125-126 of `_start_indieauth`: prepend `http://` unless `me`
already starts with `http://` or `https://`. -/
def normalize_me (me : String) : String :=
  if pyStartsWith me "http://" = false && pyStartsWith me "https://" = false then
    "http://" ++ me
  else me

/-- The `if not auth_url: auth_url = DEFAULT_AUTH_URL` substitution shared by
`_start_indieauth` and `_handle_authenticate_response`. -/
def effective_auth_url (auth_url : Option String) : String :=
  if pyTruthy auth_url then auth_url.getD "" else DEFAULT_AUTH_URL

/-- `state or ''`. -/
def pyOrEmpty (o : Option String) : String :=
  if pyTruthy o then o.getD "" else ""

/-- Line 138: the wrapped `state` parameter `'{}|{}'.format(csrf_token, ...)`. -/
def wrap_state (token state : String) : String := token ++ "|" ++ state

/-- Lines 176-179 of the callback handlers: if the wrapped state is truthy and
contains `|`, split it on the first `|` into `(csrf_token, state)`; otherwise
both are `None`. -/
def unwrapWrapped : Option String → Option String × Option String
  | none => (none, none)
  | some s =>
    if s ≠ "" ∧ '|' ∈ s.data then
      match splitOnceOn '|' s.data with
      | some p => (some (String.mk p.1), some (String.mk p.2))
      | none => (none, none)
    else (none, none)

/-- `MicropubClient._start_indieauth`: normalize `me`, discover endpoints,
default the authorization endpoint, store a fresh CSRF token in the session,
and build the redirect URL.  The generated `uuid.uuid4().hex` token is an
explicit argument; the result is the redirect URL and the updated session,
`none` when the discovery GET raises. -/
def start_indieauth (w : World) (csrfToken clientId : String) (me redirectUrl : String)
    (state scope : Option String) (sess : Session) : Option (String × Session) :=
  let me := normalize_me me
  match discover_endpoints w me with
  | none => none
  | some endpoints =>
    let authUrl := effective_auth_url endpoints.1
    let sess := sessionSet sess micropubCsrfKey csrfToken
    let authParams :=
      [("me", me), ("client_id", clientId), ("redirect_uri", redirectUrl),
       ("state", wrap_state csrfToken (pyOrEmpty state))] ++
      (if pyTruthy scope then [("scope", scope.getD "")] else [])
    some (authUrl ++ "?" ++ urlencode authParams, sess)

/-- Lines 208-224 of `_handle_authenticate_response`: everything after the
POST to the authorization endpoint, as a function of that POST's response. -/
def authenticate_finish (resp : Option HttpResp) (state : Option String) :
    Option AuthResponse :=
  match resp with
  | none => none
  | some r =>
    if r.status ≠ 200 then
      some (mkAuthResponse none none none state none
        (some ("authorization failed. " ++ (qsFirst r.body "error").getD "Unknown Error" ++
          ": " ++ (qsFirst r.body "error_description").getD "Unknown Error")))
    else if qsFirst r.body "me" = none then
      some (mkAuthResponse none none none state none
        (some "missing \x22me\x22 in response"))
    else
      some (mkAuthResponse (qsFirst r.body "me") none none state none none)

/-- `MicropubClient._handle_authenticate_response`: unwrap the callback state,
check the CSRF token against the session, re-discover the authorization
endpoint from `me`, POST the code to it and interpret the response.  A `none`
result models an uncaught exception (transport fault, or `requests.get(None)`
when the callback has no `me`). -/
def handle_authenticate_response (w : World) (clientId redirectUri : String)
    (args : CallbackArgs) (sess : Session) : Option AuthResponse × Session :=
  let csrfToken := (unwrapWrapped args.state).1
  let state := (unwrapWrapped args.state).2
  if pyTruthy csrfToken = false then
    (some (mkAuthResponse none none none state none (some "no CSRF token in response")), sess)
  else if csrfToken ≠ sess micropubCsrfKey then
    (some (mkAuthResponse none none none state none (some "mismatched CSRF token")), sess)
  else
    match args.me with
    | none => (none, sess)
    | some meUrl =>
      match discover_endpoints w meUrl with
      | none => (none, sess)
      | some endpoints =>
        let authUrl := effective_auth_url endpoints.1
        (authenticate_finish
          (w.postResp authUrl
            [("code", args.code), ("client_id", some clientId),
             ("redirect_uri", some redirectUri), ("state", args.state)])
          state, sess)

/-- `MicropubClient._handle_authorize_response`: unwrap the callback state,
check the CSRF token against the session, re-discover token and micropub
endpoints from `me`, and exchange the code for an access token.  A `none`
result models an uncaught exception; in particular the success path evaluates
`tdata.get('me')[0]` and `tdata.get('scope')[0]`, which raise `TypeError`
when the 200 token-endpoint body lacks those fields. -/
def handle_authorize_response (w : World) (clientId redirectUri : String)
    (args : CallbackArgs) (sess : Session) : Option AuthResponse × Session :=
  let csrfToken := (unwrapWrapped args.state).1
  let state := (unwrapWrapped args.state).2
  if pyTruthy csrfToken = false then
    (some (mkAuthResponse none none none state none (some "no CSRF token in response")), sess)
  else if csrfToken ≠ sess micropubCsrfKey then
    (some (mkAuthResponse none none none state none (some "mismatched CSRF token")), sess)
  else
    match args.me with
    | none => (none, sess)
    | some meUrl =>
      match discover_endpoints w meUrl with
      | none => (none, sess)
      | some endpoints =>
        let tokenUrl := endpoints.2.1
        let micropubUrl := endpoints.2.2
        if pyTruthy tokenUrl = false ∨ pyTruthy micropubUrl = false then
          (some (mkAuthResponse args.me none none state none
            (some "no micropub endpoint found.")), sess)
        else
          match w.postResp (tokenUrl.getD "")
              [("code", args.code), ("me", args.me), ("redirect_uri", some redirectUri),
               ("client_id", some clientId), ("state", args.state)] with
          | none => (none, sess)
          | some tr =>
            if tr.status ≠ 200 then
              (some (mkAuthResponse args.me none none state none
                (some ("bad response from token endpoint: <Response [" ++
                  toString tr.status ++ "]>"))), sess)
            else if qsFirst tr.body "access_token" = none then
              (some (mkAuthResponse args.me none none state none
                (some ("response from token endpoint missing access_token: " ++
                  pyDictRepr (parse_qsl tr.body)))), sess)
            else
              match qsFirst tr.body "me", qsFirst tr.body "scope" with
              | some confirmedMe, some confirmedScope =>
                (some (mkAuthResponse (some confirmedMe) micropubUrl
                  (qsFirst tr.body "access_token") state (some confirmedScope) none), sess)
              | _, _ => (none, sess)

/-! Concrete transports, responses, callbacks and sessions used to witness
the theorems below. -/

/-- A transport where every request faults. -/
def emptyWorld : World := ⟨fun _ => none, fun _ _ => none⟩

/-- A 200 identity-page response carrying no endpoint links at all. -/
def respNoLinks : HttpResp := ⟨200, "", fun _ => none, fun _ => none⟩

/-- A 404 identity-page response. -/
def respNotFound : HttpResp := ⟨404, "", fun _ => none, fun _ => none⟩

/-- A 200 identity-page response with a Link-header authorization endpoint and
HTML `<link>` fallbacks for the authorization and token relations. -/
def respBoth : HttpResp :=
  ⟨200, "",
   fun rel => if rel = "authorization_endpoint" then some "http://header.example/auth" else none,
   fun rel =>
     if rel = "authorization_endpoint" then some "http://html.example/auth"
     else if rel = "token_endpoint" then some "http://html.example/token"
     else none⟩

/-- A 200 identity-page response advertising all three endpoints in Link headers. -/
def respAllLinks : HttpResp :=
  ⟨200, "",
   fun rel =>
     if rel = "authorization_endpoint" then some "http://auth.example"
     else if rel = "token_endpoint" then some "http://token.example"
     else if rel = "micropub" then some "http://mp.example"
     else none,
   fun _ => none⟩

/-- A 200 token-endpoint response whose body has `access_token` but neither
`me` nor `scope`. -/
def respTokenNoMe : HttpResp := ⟨200, "access_token=abc123", fun _ => none, fun _ => none⟩

/-- A 200 authorization-endpoint response whose body has no `me` field. -/
def respAuthNoMe : HttpResp := ⟨200, "foo=bar", fun _ => none, fun _ => none⟩

/-- The identity page has no links; the default authorization endpoint
answers 200 without a `me` field. -/
def wAuthNoMe : World :=
  ⟨fun url => if url = "http://user.example" then some respNoLinks else none,
   fun url _ => if url = DEFAULT_AUTH_URL then some respAuthNoMe else none⟩

/-- The identity page has no links; every POST faults. -/
def wNoEndpoints : World :=
  ⟨fun url => if url = "http://user.example" then some respNoLinks else none,
   fun _ _ => none⟩

/-- Two identity pages: one with mixed header/HTML links, one answering 404. -/
def wDiscovery : World :=
  ⟨fun url =>
     if url = "http://site.example" then some respBoth
     else if url = "http://missing.example" then some respNotFound
     else none,
   fun _ _ => none⟩

/-- Full endpoint discovery; the token endpoint answers 200 with a body
containing only `access_token`. -/
def wTokenNoMe : World :=
  ⟨fun url => if url = "http://user.example" then some respAllLinks else none,
   fun url _ => if url = "http://token.example" then some respTokenNoMe else none⟩

/-- A 200 token-endpoint response with all three success fields. -/
def respTokenFull : HttpResp :=
  ⟨200, "access_token=abc123&me=http://example.com&scope=create",
   fun _ => none, fun _ => none⟩

/-- Full endpoint discovery; the token endpoint answers 200 with all three
success fields. -/
def wTokenFull : World :=
  ⟨fun url => if url = "http://user.example" then some respAllLinks else none,
   fun url _ => if url = "http://token.example" then some respTokenFull else none⟩

/-- Callback query parameters of a well-formed provider redirect whose wrapped
state matches `sessOk`. -/
def argsOk : CallbackArgs := ⟨some "c0de", some "t0k|st", some "http://user.example"⟩

/-- A callback carrying no query parameters at all. -/
def argsNoState : CallbackArgs := ⟨none, none, none⟩

/-- Callback whose wrapped state carries a CSRF token other than the stored one. -/
def argsMismatch : CallbackArgs := ⟨some "c0de", some "bad|st", some "http://user.example"⟩

/-- A session holding the in-flight CSRF token `"t0k"`. -/
def sessOk : Session := fun k => if k = "_micropub_csrf_token" then some "t0k" else none

/-- The result of a concrete flow initiation in `wNoEndpoints` with the fresh
token `"newtok"`. -/
def startPair : String × Session :=
  (start_indieauth wNoEndpoints "newtok" "cid" "user.example" "http://cb.example"
    (some "s") none sessOk).getD ("", sessOk)

/-! Helper lemmas. -/

/-- Splitting on the first separator undoes prepending a separator-free piece. -/
theorem splitOnceOn_append (sep : Char) (a b : List Char) (h : sep ∉ a) :
    splitOnceOn sep (a ++ sep :: b) = some (a, b) := by
  induction a with
  | nil => simp [splitOnceOn]
  | cons c a ih =>
    have hc : ¬ c = sep := fun hcs => h (by simp [hcs])
    have ha : sep ∉ a := fun hm => h (List.mem_cons_of_mem _ hm)
    simp [splitOnceOn, hc, ih ha]

/-- C3: for every CSRF token not containing the separator `|` and every
application state string (empty and `|`-containing states included), the
handlers' unwrapping of the wrapped encoding `token ++ "|" ++ state` —
a split on the first `|` only — yields back exactly the token and the state. -/
theorem C3_wrap_unwrap_roundtrip (t st : String) (h : '|' ∉ t.data) :
    unwrapWrapped (some (wrap_state t st)) = (some t, some st) := by
  have hdata : (wrap_state t st).data = t.data ++ '|' :: st.data := by
    show (t ++ "|" ++ st).data = _
    rw [String.data_append, String.data_append]
    simp [List.append_assoc]
  have hne : wrap_state t st ≠ "" := by
    intro heq
    have h2 := congrArg String.data heq
    rw [hdata] at h2
    have h3 : t.data ++ '|' :: st.data = ([] : List Char) := h2
    simp at h3
  have hmem : '|' ∈ (wrap_state t st).data := by rw [hdata]; simp
  simp only [unwrapWrapped]
  rw [if_pos ⟨hne, hmem⟩, hdata, splitOnceOn_append _ _ _ h]

/-- C3 witness: round trip at token `"abc"` and state `"x|y"`. -/
theorem C3_wrap_unwrap_roundtrip_witness :
    unwrapWrapped (some (wrap_state "abc" "x|y")) = (some "abc", some "x|y") :=
  C3_wrap_unwrap_roundtrip "abc" "x|y" (by decide)

/-- C7 counterexample: `ftp://example.com` already starts with a scheme, but
flow initiation still prepends `http://`, so it is not passed to discovery
unchanged. -/
theorem C7_counterexample :
    normalize_me "ftp://example.com" = "http://ftp://example.com" ∧
    normalize_me "ftp://example.com" ≠ "ftp://example.com" := by
  refine ⟨rfl, fun h => ?_⟩
  rw [show normalize_me "ftp://example.com" = "http://ftp://example.com" from rfl] at h
  exact absurd h (by decide)

/-- C7 (amended): an identity URL starting with neither `http://` nor
`https://` — whether it lacks a scheme altogether or carries some other
scheme — gets `http://` prepended exactly once; one already starting with
`http://` or `https://` is left unchanged; and flow initiation hands the
normalized URL to discovery. -/
theorem C7_normalization (me : String) :
    (pyStartsWith me "http://" = false → pyStartsWith me "https://" = false →
      normalize_me me = "http://" ++ me) ∧
    (pyStartsWith me "http://" = true ∨ pyStartsWith me "https://" = true →
      normalize_me me = me) ∧
    (∀ (w : World) (csrfToken clientId redirectUrl : String) (state scope : Option String)
        (sess : Session),
      discover_endpoints w (normalize_me me) = none →
      start_indieauth w csrfToken clientId me redirectUrl state scope sess = none) := by
  refine ⟨fun h1 h2 => by simp [normalize_me, h1, h2], fun h => ?_, ?_⟩
  · rcases h with h | h <;> simp [normalize_me, h]
  · intro w csrfToken clientId redirectUrl state scope sess hdisc
    simp [start_indieauth, hdisc]

/-- C7 witness: `example.com` is prefixed, `https://example.com` is kept, and
with a transport that faults on every URL the initiation fault surfaces. -/
theorem C7_normalization_witness :
    normalize_me "example.com" = "http://" ++ "example.com" ∧
    normalize_me "https://example.com" = "https://example.com" ∧
    start_indieauth emptyWorld "t0k" "cid" "example.com" "http://cb.example"
      none none sessOk = none :=
  ⟨(C7_normalization "example.com").1 (by decide) (by decide),
   (C7_normalization "https://example.com").2.1 (Or.inr (by decide)),
   (C7_normalization "example.com").2.2 emptyWorld "t0k" "cid" "http://cb.example"
     none none sessOk rfl⟩

/-- C1: whenever the callback's wrapped state unwraps to a (nonempty) CSRF
token that differs from the value stored in the session under
`'_micropub_csrf_token'`, both resolvers return, for every transport, the
response with error `"mismatched CSRF token"`, no `access_token`, and no `me`:
the equality holds for all `World`s, so no validation or token-exchange POST
contributes to the result. -/
theorem C1_csrf_mismatch (w : World) (clientId redirectUri : String) (args : CallbackArgs)
    (sess : Session) (t st : String)
    (hunwrap : unwrapWrapped args.state = (some t, some st))
    (ht : t ≠ "")
    (hmismatch : some t ≠ sess micropubCsrfKey) :
    handle_authenticate_response w clientId redirectUri args sess =
      (some (mkAuthResponse none none none (some st) none (some "mismatched CSRF token")), sess) ∧
    handle_authorize_response w clientId redirectUri args sess =
      (some (mkAuthResponse none none none (some st) none (some "mismatched CSRF token")), sess) := by
  have h1 : (unwrapWrapped args.state).1 = some t := by rw [hunwrap]
  have h2 : (unwrapWrapped args.state).2 = some st := by rw [hunwrap]
  constructor
  · simp [handle_authenticate_response, h1, h2, pyTruthy, ht, hmismatch]
  · simp [handle_authorize_response, h1, h2, pyTruthy, ht, hmismatch]

/-- C1 witness: state wrapped with token `"bad"` against a session storing
`"t0k"`, under a transport that faults on every request (so any attempted
network call would surface as a fault, not this value). -/
theorem C1_csrf_mismatch_witness :
    handle_authenticate_response emptyWorld "cid" "ruri" argsMismatch sessOk =
      (some (mkAuthResponse none none none (some "st") none (some "mismatched CSRF token")),
        sessOk) ∧
    handle_authorize_response emptyWorld "cid" "ruri" argsMismatch sessOk =
      (some (mkAuthResponse none none none (some "st") none (some "mismatched CSRF token")),
        sessOk) :=
  C1_csrf_mismatch emptyWorld "cid" "ruri" argsMismatch sessOk "bad" "st"
    (by decide) (by decide) (by decide)

/-- C4: discovery issues a GET to the identity URL: a non-200 response yields
all three endpoints absent, and on a 200 response each relation's endpoint is
the Link-header URL whenever that yields something (truthy), with the HTML
`<link>` href consulted only when the header yields nothing for that
relation. -/
theorem C4_discovery_precedence (w : World) (me : String) (resp : HttpResp)
    (h : w.getResp me = some resp) :
    (resp.status ≠ 200 → discover_endpoints w me = some (none, none, none)) ∧
    (resp.status = 200 → discover_endpoints w me = some
      ((if pyTruthy (resp.headerLinks "authorization_endpoint") then
          resp.headerLinks "authorization_endpoint"
        else resp.htmlLinks "authorization_endpoint"),
       (if pyTruthy (resp.headerLinks "token_endpoint") then
          resp.headerLinks "token_endpoint"
        else resp.htmlLinks "token_endpoint"),
       (if pyTruthy (resp.headerLinks "micropub") then
          resp.headerLinks "micropub"
        else resp.htmlLinks "micropub"))) := by
  constructor
  · intro hs
    simp [discover_endpoints, h, hs]
  · intro hs
    cases hA : pyTruthy (resp.headerLinks "authorization_endpoint") <;>
      cases hT : pyTruthy (resp.headerLinks "token_endpoint") <;>
        cases hM : pyTruthy (resp.headerLinks "micropub") <;>
          simp [discover_endpoints, h, hs, hA, hT, hM]

/-- C4 witness: on a page with a Link-header authorization endpoint and HTML
authorization/token links, the header wins for the authorization relation,
the HTML href fills in the token endpoint, micropub stays absent; a 404 page
yields all three absent. -/
theorem C4_discovery_precedence_witness :
    discover_endpoints wDiscovery "http://site.example" =
      some (some "http://header.example/auth", some "http://html.example/token", none) ∧
    discover_endpoints wDiscovery "http://missing.example" = some (none, none, none) := by
  constructor
  · rw [(C4_discovery_precedence wDiscovery "http://site.example" respBoth rfl).2 rfl]
    rfl
  · exact (C4_discovery_precedence wDiscovery "http://missing.example" respNotFound rfl).1
      (by decide)

/-- C5 counterexample: with token and micropub endpoints undiscovered the
authorize resolver's error is `"no micropub endpoint found."` — with a
trailing period — not `"no micropub endpoint found"` as the claim states. -/
theorem C5_counterexample :
    ((handle_authorize_response wNoEndpoints "cid" "ruri" argsOk sessOk).1.map
      AuthResponse.error) = some (some "no micropub endpoint found.") ∧
    some (some "no micropub endpoint found.") ≠
      some (some ("no micropub endpoint found" : String)) :=
  ⟨rfl, by decide⟩

/-- C5 (amended): an authorize callback that passes CSRF validation but whose
discovery leaves the token endpoint or the micropub endpoint absent resolves
to `me` = the original unconfirmed callback `me`, no `access_token`, and
error `"no micropub endpoint found."` (with a trailing period). -/
theorem C5_no_micropub_endpoint (w : World) (clientId redirectUri : String)
    (args : CallbackArgs) (sess : Session) (t st m : String) (a tok mp : Option String)
    (hunwrap : unwrapWrapped args.state = (some t, some st))
    (ht : t ≠ "")
    (hmatch : some t = sess micropubCsrfKey)
    (hme : args.me = some m)
    (hdisc : discover_endpoints w m = some (a, tok, mp))
    (habsent : pyTruthy tok = false ∨ pyTruthy mp = false) :
    handle_authorize_response w clientId redirectUri args sess =
      (some (mkAuthResponse (some m) none none (some st) none
        (some "no micropub endpoint found.")), sess) := by
  have h1 : (unwrapWrapped args.state).1 = some t := by rw [hunwrap]
  have h2 : (unwrapWrapped args.state).2 = some st := by rw [hunwrap]
  have htruthy : pyTruthy (some t) = true := by simp [pyTruthy, ht]
  simp [handle_authorize_response, h1, h2, htruthy, ← hmatch, hme, hdisc, habsent]

/-- C5 witness: the concrete counterexample world, resolved via the amended
theorem at token `"t0k"`, state `"st"`, identity `"http://user.example"`. -/
theorem C5_no_micropub_endpoint_witness :
    handle_authorize_response wNoEndpoints "cid" "ruri" argsOk sessOk =
      (some (mkAuthResponse (some "http://user.example") none none (some "st") none
        (some "no micropub endpoint found.")), sessOk) :=
  C5_no_micropub_endpoint wNoEndpoints "cid" "ruri" argsOk sessOk "t0k" "st"
    "http://user.example" none none none (by decide) (by decide) (by decide) rfl rfl
    (Or.inl (by decide))

/-- C8 counterexample: on a 200 validation response lacking `me`, the
authenticate resolver's error is `"missing \x22me\x22 in response"` — with
double quotes around me — not `"missing me in response"`. -/
theorem C8_counterexample :
    ((handle_authenticate_response wAuthNoMe "cid" "ruri" argsOk sessOk).1.map
      AuthResponse.error) = some (some "missing \x22me\x22 in response") ∧
    some (some "missing \x22me\x22 in response") ≠
      some (some ("missing me in response" : String)) :=
  ⟨rfl, by decide⟩

/-- C8 (amended): an authenticate callback that passes CSRF validation and
receives a 200 response from the effective authorization endpoint whose
query-string-encoded body lacks a `me` field resolves to an `AuthResponse`
with `me` absent and error `missing "me" in response` — the double quotes
around me are part of the message. -/
theorem C8_missing_me (w : World) (clientId redirectUri : String) (args : CallbackArgs)
    (sess : Session) (t st m : String) (a tok mp : Option String) (r : HttpResp)
    (hunwrap : unwrapWrapped args.state = (some t, some st))
    (ht : t ≠ "")
    (hmatch : some t = sess micropubCsrfKey)
    (hme : args.me = some m)
    (hdisc : discover_endpoints w m = some (a, tok, mp))
    (hpost : w.postResp (effective_auth_url a)
      [("code", args.code), ("client_id", some clientId),
       ("redirect_uri", some redirectUri), ("state", args.state)] = some r)
    (hstatus : r.status = 200)
    (hnome : qsFirst r.body "me" = none) :
    handle_authenticate_response w clientId redirectUri args sess =
      (some (mkAuthResponse none none none (some st) none
        (some "missing \x22me\x22 in response")), sess) := by
  have h1 : (unwrapWrapped args.state).1 = some t := by rw [hunwrap]
  have h2 : (unwrapWrapped args.state).2 = some st := by rw [hunwrap]
  have htruthy : pyTruthy (some t) = true := by simp [pyTruthy, ht]
  simp [handle_authenticate_response, authenticate_finish, h1, h2, htruthy,
    ← hmatch, hme, hdisc, hpost, hstatus, hnome]

/-- C8 witness: the concrete counterexample world, resolved via the amended
theorem. -/
theorem C8_missing_me_witness :
    handle_authenticate_response wAuthNoMe "cid" "ruri" argsOk sessOk =
      (some (mkAuthResponse none none none (some "st") none
        (some "missing \x22me\x22 in response")), sessOk) :=
  C8_missing_me wAuthNoMe "cid" "ruri" argsOk sessOk "t0k" "st" "http://user.example"
    none none none respAuthNoMe (by decide) (by decide) (by decide) rfl rfl rfl rfl rfl

/-- C6: whenever endpoint discovery yields no authorization endpoint (absent
or empty), the constant `https://indieauth.com/auth` is substituted: the
shared defaulting step returns it, flow initiation builds its redirect on it,
and the authenticate resolver sends its code-validation POST to it. -/
theorem C6_default_auth_endpoint :
    (∀ a : Option String, pyTruthy a = false → effective_auth_url a = DEFAULT_AUTH_URL) ∧
    (∀ (w : World) (csrfToken clientId me redirectUrl : String)
        (state scope : Option String) (sess : Session) (a tok mp : Option String),
      discover_endpoints w (normalize_me me) = some (a, tok, mp) →
      pyTruthy a = false →
      start_indieauth w csrfToken clientId me redirectUrl state scope sess =
        some (DEFAULT_AUTH_URL ++ "?" ++ urlencode
          ([("me", normalize_me me), ("client_id", clientId),
            ("redirect_uri", redirectUrl),
            ("state", wrap_state csrfToken (pyOrEmpty state))] ++
           (if pyTruthy scope then [("scope", scope.getD "")] else [])),
          sessionSet sess micropubCsrfKey csrfToken)) ∧
    (∀ (w : World) (clientId redirectUri : String) (args : CallbackArgs) (sess : Session)
        (t st m : String) (a tok mp : Option String),
      unwrapWrapped args.state = (some t, some st) → t ≠ "" →
      some t = sess micropubCsrfKey → args.me = some m →
      discover_endpoints w m = some (a, tok, mp) → pyTruthy a = false →
      handle_authenticate_response w clientId redirectUri args sess =
        (authenticate_finish (w.postResp DEFAULT_AUTH_URL
          [("code", args.code), ("client_id", some clientId),
           ("redirect_uri", some redirectUri), ("state", args.state)]) (some st), sess)) := by
  refine ⟨fun a ha => by simp [effective_auth_url, ha], ?_, ?_⟩
  · intro w csrfToken clientId me redirectUrl state scope sess a tok mp hdisc ha
    simp [start_indieauth, hdisc, effective_auth_url, ha]
  · intro w clientId redirectUri args sess t st m a tok mp hunwrap ht hmatch hme hdisc ha
    have h1 : (unwrapWrapped args.state).1 = some t := by rw [hunwrap]
    have h2 : (unwrapWrapped args.state).2 = some st := by rw [hunwrap]
    have htruthy : pyTruthy (some t) = true := by simp [pyTruthy, ht]
    simp [handle_authenticate_response, h1, h2, htruthy, ← hmatch, hme, hdisc,
      effective_auth_url, ha]

/-- C6 witness: the defaulting step at `none`, and a full authenticate
resolution in `wAuthNoMe` whose validation POST goes to the default
authorization endpoint. -/
theorem C6_default_auth_endpoint_witness :
    effective_auth_url none = DEFAULT_AUTH_URL ∧
    handle_authenticate_response wAuthNoMe "cid" "ruri" argsOk sessOk =
      (authenticate_finish (wAuthNoMe.postResp DEFAULT_AUTH_URL
        [("code", some "c0de"), ("client_id", some "cid"),
         ("redirect_uri", some "ruri"), ("state", some "t0k|st")]) (some "st"), sessOk) :=
  ⟨C6_default_auth_endpoint.1 none rfl,
   C6_default_auth_endpoint.2.2 wAuthNoMe "cid" "ruri" argsOk sessOk "t0k" "st"
     "http://user.example" none none none (by decide) (by decide) (by decide) rfl rfl rfl⟩

/-- C2 (code bug): an authorize callback that passes CSRF validation,
discovers both token and micropub endpoints, and receives a 200 response from
the token endpoint whose body contains `access_token` but lacks `me` (and
`scope`) does not resolve normally: the success path evaluates
`tdata.get('me')[0]` on `None` and raises `TypeError`, modelled as the `none`
(exception) outcome, contradicting the claim that resolution returns normally
for all such bodies. -/
theorem C2_token_success_crash :
    qsFirst respTokenNoMe.body "access_token" = some "abc123" ∧
    (handle_authorize_response wTokenNoMe "cid" "ruri" argsOk sessOk).1 = none :=
  ⟨rfl, rfl⟩

/-- Contrast to the crash: when the 200 token body carries `access_token`,
`me` and `scope`, the authorize resolver returns their first values together
with the discovered micropub endpoint and no error (the spec's scenario C). -/
theorem authorize_success_scenario :
    (handle_authorize_response wTokenFull "cid" "ruri" argsOk sessOk).1 =
      some (mkAuthResponse (some "http://example.com") (some "http://mp.example")
        (some "abc123") (some "st") (some "create") none) :=
  rfl

/-- Every response `authenticate_finish` returns keeps `next_url` aliased to
`state`. -/
theorem authenticate_finish_next_url_eq_state (resp : Option HttpResp)
    (st : Option String) (r : AuthResponse)
    (h : authenticate_finish resp st = some r) : r.next_url = r.state := by
  cases resp with
  | none => simp [authenticate_finish] at h
  | some rr =>
    simp only [authenticate_finish] at h
    repeat' split at h
    all_goals (simp only [mkAuthResponse, Option.some.injEq] at h; subst h; rfl)

/-- C9: the `AuthResponse` constructor aliases the deprecated `next_url`
attribute to `state`, so every response either resolver produces satisfies
`next_url = state`. -/
theorem C9_next_url_eq_state :
    (∀ me mp tokn st sc er,
      (mkAuthResponse me mp tokn st sc er).next_url =
        (mkAuthResponse me mp tokn st sc er).state) ∧
    (∀ (w : World) (clientId redirectUri : String) (args : CallbackArgs) (sess : Session)
        (r : AuthResponse),
      (handle_authenticate_response w clientId redirectUri args sess).1 = some r →
      r.next_url = r.state) ∧
    (∀ (w : World) (clientId redirectUri : String) (args : CallbackArgs) (sess : Session)
        (r : AuthResponse),
      (handle_authorize_response w clientId redirectUri args sess).1 = some r →
      r.next_url = r.state) := by
  refine ⟨fun _ _ _ _ _ _ => rfl, ?_, ?_⟩
  · intro w clientId redirectUri args sess r h
    simp only [handle_authenticate_response] at h
    repeat' split at h
    all_goals
      first
      | exact authenticate_finish_next_url_eq_state _ _ _ h
      | (simp only [mkAuthResponse, Option.some.injEq] at h; subst h; rfl)
      | simp at h
  · intro w clientId redirectUri args sess r h
    simp only [handle_authorize_response] at h
    repeat' split at h
    all_goals
      first
      | (simp only [mkAuthResponse, Option.some.injEq] at h; subst h; rfl)
      | simp at h

/-- C9 witness: a resolution that returns the no-CSRF-token response keeps
`next_url` equal to `state`. -/
theorem C9_next_url_eq_state_witness :
    (handle_authenticate_response emptyWorld "cid" "ruri" argsNoState sessOk).1 =
      some (mkAuthResponse none none none none none (some "no CSRF token in response")) ∧
    (mkAuthResponse none none none none none
      (some "no CSRF token in response")).next_url =
      (mkAuthResponse none none none none none (some "no CSRF token in response")).state :=
  ⟨rfl, C9_next_url_eq_state.2.1 emptyWorld "cid" "ruri" argsNoState sessOk _ rfl⟩

/-- C10: callback resolution never writes the session — on every path of both
resolvers the outgoing session is the incoming one, so the stored CSRF token
keeps its value and is not invalidated by being consumed — while flow
initiation writes the fresh token under `'_micropub_csrf_token'` and leaves
every other key unchanged. -/
theorem C10_session_frame :
    (∀ (w : World) (clientId redirectUri : String) (args : CallbackArgs) (sess : Session),
      (handle_authenticate_response w clientId redirectUri args sess).2 = sess) ∧
    (∀ (w : World) (clientId redirectUri : String) (args : CallbackArgs) (sess : Session),
      (handle_authorize_response w clientId redirectUri args sess).2 = sess) ∧
    (∀ (w : World) (csrfToken clientId me redirectUrl : String)
        (state scope : Option String) (sess : Session) (p : String × Session),
      start_indieauth w csrfToken clientId me redirectUrl state scope sess = some p →
      p.2 micropubCsrfKey = some csrfToken ∧
      ∀ k, k ≠ micropubCsrfKey → p.2 k = sess k) := by
  refine ⟨?_, ?_, ?_⟩
  · intro w clientId redirectUri args sess
    simp only [handle_authenticate_response]
    repeat' split
    all_goals rfl
  · intro w clientId redirectUri args sess
    simp only [handle_authorize_response]
    repeat' split
    all_goals rfl
  · intro w csrfToken clientId me redirectUrl state scope sess p h
    simp only [start_indieauth] at h
    split at h
    · simp at h
    · rw [Option.some.injEq] at h
      subst h
      constructor
      · simp [sessionSet]
      · intro k hk
        simp [sessionSet, hk]

/-- C10 witness: a concrete resolution leaves the session untouched, and the
concrete initiation `startPair` stores its fresh token under the fixed key. -/
theorem C10_session_frame_witness :
    (handle_authenticate_response emptyWorld "cid" "ruri" argsOk sessOk).2 = sessOk ∧
    startPair.2 micropubCsrfKey = some "newtok" :=
  ⟨C10_session_frame.1 emptyWorld "cid" "ruri" argsOk sessOk,
   (C10_session_frame.2.2 wNoEndpoints "newtok" "cid" "user.example" "http://cb.example"
     (some "s") none sessOk startPair rfl).1⟩
